import Mathlib

/-!
A shallow embedding of `src/expense_tracker.py` (class `ExpenseTracker`).

Tables are lists of rows kept in rowid (insertion) order; sqlite assigns
`INTEGER PRIMARY KEY` ids as successive integers, modelled by per-table
counters (faithful because no row of any table is ever deleted: the
`INSERT OR REPLACE` of `set_budget` never meets a uniqueness conflict,
see `set_budget`).  `REAL` amounts are modelled as exact rationals.
`datetime.now()` is an ambient clock: operations that read it take the
formatted value (`date` = "YYYY-MM-DD", `month` = "YYYY-MM") as an
explicit argument.  The SMTP transport is an oracle argument of type
`MailOutcome`.
-/

structure UserRow where
  id : Nat
  email : String
  userName : String
deriving DecidableEq

structure ExpenseRow where
  id : Nat
  user_id : Nat
  amount : ℚ
  category : String
  description : String
  date : String
  shared_with : String
deriving DecidableEq

structure BudgetRow where
  id : Nat
  user_id : Nat
  category : String
  amount : ℚ
  month : String
  alert_threshold : ℚ
deriving DecidableEq

/-- The persistent store: the three tables of `setup_database` plus the
next sqlite rowid of each table. -/
structure DB where
  users : List UserRow
  expenses : List ExpenseRow
  budgets : List BudgetRow
  nextUserId : Nat
  nextExpenseId : Nat
  nextBudgetId : Nat
deriving DecidableEq

/-- `setup_database` on a fresh database file: three empty tables; sqlite
hands out rowids starting from 1. -/
def setup_database : DB := ⟨[], [], [], 1, 1, 1⟩

/-- SQLite `LIKE`, ASCII-case-insensitive: `%` matches any run of
characters, `_` any single character, and any other pattern character
matches itself up to ASCII case (`Char.toLower` folds exactly ASCII).
Written with explicit fuel so that recursion is structural; fuel
`pattern.length + s.length + 1` always suffices because every step
consumes a pattern character or a string character. -/
def likeRun : Nat → List Char → List Char → Bool
  | 0, _, _ => false
  | _ + 1, [], s => s.isEmpty
  | f + 1, c :: p, s =>
    if c == '%' then
      likeRun f p s ||
        (match s with
          | [] => false
          | _ :: t => likeRun f (c :: p) t)
    else
      match s with
      | [] => false
      | d :: t => (c == '_' || c.toLower == d.toLower) && likeRun f p t

def sqlLike (pat s : String) : Bool :=
  likeRun (pat.length + s.length + 1) pat.data s.data

/-- The `date LIKE ?` test with query parameter `f"{month}%"`, as used by
`get_monthly_spending` and `generate_report`. -/
def dateLike (month date : String) : Bool := sqlLike (month ++ "%") date

/-- `get_user_id`: `SELECT id FROM users WHERE email = ?` then `fetchone`
(first row in rowid order), `None` when there is no such user. -/
def get_user_id (db : DB) (email : String) : Option Nat :=
  (db.users.find? (fun u => u.email == email)).map (fun u => u.id)

/-- `add_user`: `INSERT INTO users (email, name)`; the `UNIQUE` constraint
on `email` raises `IntegrityError` exactly when some row already has this
email, and the source catches that and answers with `get_user_id`.
On success it returns `cursor.lastrowid`, the id of the fresh row. -/
def add_user (db : DB) (email uname : String) : DB × Option Nat :=
  if db.users.any (fun u => u.email == email) then
    (db, get_user_id db email)
  else
    (⟨db.users ++ [⟨db.nextUserId, email, uname⟩], db.expenses, db.budgets,
      db.nextUserId + 1, db.nextExpenseId, db.nextBudgetId⟩,
     some db.nextUserId)

/-- Python `shared_with or ''` of `log_expense`: `None` and `""` are both
falsy, so both become `""`. -/
def pyOrEmpty : Option String → String
  | none => ""
  | some s => if s == "" then "" else s

/-- SQL `SUM(amount)`: `NULL` over the empty set of rows, the sum
otherwise. -/
def sqlSum (xs : List ℚ) : Option ℚ :=
  match xs with
  | [] => none
  | _ => some xs.sum

/-- Python `result or 0.0` applied to the fetched `SUM`: `None` and `0.0`
are falsy, everything else passes through. -/
def pyOrZero : Option ℚ → ℚ
  | none => 0
  | some v => if v = 0 then 0 else v

/-- Row test of the `WHERE` clause of `get_monthly_spending`:
`user_id = ? AND category = ? AND date LIKE ?` with pattern `f"{month}%"`
(SQL `=` on TEXT is case-sensitive, `LIKE` folds ASCII case). -/
def expenseMatches (uid : Nat) (cat month : String) (e : ExpenseRow) : Bool :=
  e.user_id == uid && e.category == cat && dateLike month e.date

/-- `get_monthly_spending`: sums the matching amounts and maps the `NULL`
of an empty match set (and a `0.0` sum, also falsy) to `0.0`. -/
def get_monthly_spending (db : DB) (uid : Nat) (cat month : String) : ℚ :=
  pyOrZero (sqlSum ((db.expenses.filter (expenseMatches uid cat month)).map
    (fun e => e.amount)))

/-- `set_budget`: `INSERT OR REPLACE INTO budgets (user_id, category,
amount, month, alert_threshold)`.  The `budgets` table of
`setup_database` has no uniqueness constraint apart from the
auto-assigned `id`, and `id` is not in the insert's column list, so this
insert can never conflict: `INSERT OR REPLACE` behaves as a plain insert
that appends a fresh row with a fresh id. -/
def set_budget (db : DB) (uid : Nat) (cat : String) (amount : ℚ)
    (month : String) (alert_threshold : ℚ) : DB :=
  ⟨db.users, db.expenses,
   db.budgets ++ [⟨db.nextBudgetId, uid, cat, amount, month, alert_threshold⟩],
   db.nextUserId, db.nextExpenseId, db.nextBudgetId + 1⟩

/-- The budget read of `check_budget`: `SELECT amount, alert_threshold
FROM budgets WHERE user_id = ? AND category = ? AND month = ?` then
`fetchone` — the first matching row in rowid order, if any. -/
def fetchBudget (db : DB) (uid : Nat) (cat month : String) : Option (ℚ × ℚ) :=
  (db.budgets.find? (fun b => b.user_id == uid && b.category == cat && b.month == month)).map
    (fun b => (b.amount, b.alert_threshold))

/-- Outcome of one attempted SMTP delivery (connect, starttls, login,
send): either it succeeds, or the attempt raises with some reason. -/
inductive MailOutcome where
  | sent : MailOutcome
  | failed : String → MailOutcome
deriving DecidableEq

/-- The Python faults this embedding can surface: the `ZeroDivisionError`
of `(budget - total_spent) / budget` when `budget` is `0`, and the
`TypeError` of `self.cursor.fetchone()[0]` in `send_alert` when no user
row exists (`None` is not subscriptable). -/
inductive PyFault where
  | zeroDivisionError : PyFault
  | noneSubscriptError : PyFault
deriving DecidableEq

/-- An alert as the claims identify it: its subject and its category (the
source's mail subject and body only re-render these data plus amounts). -/
structure Alert where
  subject : String
  category : String
deriving DecidableEq

/-- What one `check_budget` call produces besides store reads: the alert
it sent, if any, and the console line printed by a swallowed mail
failure, if any. -/
structure CheckOutcome where
  alert : Option Alert
  console : Option String
deriving DecidableEq

/-- The `print` line of the `except` handler of `send_alert`, as a
function of the delivery outcome. -/
def mailConsole : MailOutcome → Option String
  | MailOutcome.sent => none
  | MailOutcome.failed e => some ("Failed to send email: " ++ e)

/-- `send_alert`: `fetchone()[0]` on the user query raises `TypeError`
when the user row is absent (this line runs before the `try` block); the
SMTP block is wrapped in `try ... except Exception`, so a delivery
failure of any kind only prints a console line and is swallowed. -/
def send_alert (db : DB) (uid : Nat) (mail : MailOutcome) : Except PyFault (Option String) :=
  match db.users.find? (fun u => u.id == uid) with
  | none => Except.error PyFault.noneSubscriptError
  | some _ => Except.ok (mailConsole mail)

/-- `check_budget`: reads the budget row for (user, category, current
month) — `month` is `datetime.now().strftime("%Y-%m")`, an explicit
argument here — and returns silently when there is none.  Otherwise it
always computes `remaining_percent = (budget - total_spent) / budget`
first, which raises `ZeroDivisionError` when `budget = 0`; then it sends
at most one alert: "Budget exceeded" when `total_spent > budget`,
else "Low budget warning" when `remaining_percent <= threshold`. -/
def check_budget (db : DB) (uid : Nat) (cat month : String) (mail : MailOutcome) :
    Except PyFault CheckOutcome :=
  match fetchBudget db uid cat month with
  | none => Except.ok ⟨none, none⟩
  | some (budget, threshold) =>
    let total_spent := get_monthly_spending db uid cat month
    if budget = 0 then Except.error PyFault.zeroDivisionError
    else
      let remaining_percent := (budget - total_spent) / budget
      if budget < total_spent then
        match send_alert db uid mail with
        | Except.error f => Except.error f
        | Except.ok console => Except.ok ⟨some ⟨"Budget exceeded", cat⟩, console⟩
      else if remaining_percent ≤ threshold then
        match send_alert db uid mail with
        | Except.error f => Except.error f
        | Except.ok console => Except.ok ⟨some ⟨"Low budget warning", cat⟩, console⟩
      else Except.ok ⟨none, none⟩

/-- `log_expense`: inserts the expense row stamped with `date`
(= `datetime.now().strftime("%Y-%m-%d")`), commits, then runs
`check_budget` for the same user and category with the current month.
The committed insert persists whatever `check_budget` then does. -/
def log_expense (db : DB) (uid : Nat) (amount : ℚ) (cat desc : String)
    (shared_with : Option String) (date month : String) (mail : MailOutcome) :
    DB × Except PyFault CheckOutcome :=
  let db1 : DB := ⟨db.users,
    db.expenses ++ [⟨db.nextExpenseId, uid, amount, cat, desc, date, pyOrEmpty shared_with⟩],
    db.budgets, db.nextUserId, db.nextExpenseId + 1, db.nextBudgetId⟩
  (db1, check_budget db1 uid cat month mail)

/-- Value of the expenses dict of `generate_report` at one category, with
the `expenses.get(category, 0.0)` default folded in: the `GROUP BY
category` sum of this user's matching expenses of that category when
there are any, and `0.0` (= the empty sum) otherwise. -/
def catSpent (db : DB) (uid : Nat) (month cat : String) : ℚ :=
  ((db.expenses.filter (fun e => e.user_id == uid && e.category == cat && dateLike month e.date)).map
    (fun e => e.amount)).sum

/-- Key set of the expenses dict of `generate_report`: the categories of
this user's expenses whose date carries the month as prefix, each once. -/
def spendingCats (db : DB) (uid : Nat) (month : String) : List String :=
  ((db.expenses.filter (fun e => e.user_id == uid && dateLike month e.date)).map
    (fun e => e.category)).dedup

/-- Key set of the budgets dict of `generate_report`: the categories of
this user's budget rows whose `month` column equals the argument
exactly (`=`, not `LIKE`), each once. -/
def budgetCats (db : DB) (uid : Nat) (month : String) : List String :=
  ((db.budgets.filter (fun b => b.user_id == uid && b.month == month)).map
    (fun b => b.category)).dedup

/-- `budgets.get(category)` of `generate_report`: building a Python dict
from the fetched (category, amount) pairs keeps, for each category, the
amount of the last matching row in rowid order. -/
def budgetDict (db : DB) (uid : Nat) (month cat : String) : Option ℚ :=
  ((db.budgets.filter (fun b => b.user_id == uid && b.month == month)).reverse.find?
    (fun b => b.category == cat)).map (fun b => b.amount)

structure ReportRow where
  category : String
  spent : ℚ
  budget : ℚ
  status : String
deriving DecidableEq

/-- The data of one line of the report body: `spent` from the expenses
dict (default `0.0`), `budget` from the budgets dict (default `0.0`),
and `status = "Under" if spent <= budget or budget == 0 else "Over"`. -/
def reportLine (db : DB) (uid : Nat) (month cat : String) : ReportRow :=
  let spent := catSpent db uid month cat
  let budget := (budgetDict db uid month cat).getD 0
  ⟨cat, spent, budget, if spent ≤ budget ∨ budget = 0 then "Under" else "Over"⟩

/-- `generate_report`, as the list of data rows it renders into text: one
row per category in the union of the two dicts' key sets.  The source
iterates a Python set union, whose order is unspecified; the embedding
fixes one enumeration of that same set. -/
def generate_report (db : DB) (uid : Nat) (month : String) : List ReportRow :=
  ((spendingCats db uid month ++ budgetCats db uid month).dedup).map
    (reportLine db uid month)

/-! ### Helper lemmas -/

theorem pyOrZero_some (v : ℚ) : pyOrZero (some v) = v := by
  by_cases h : v = 0 <;> simp [pyOrZero, h]

/-- `log_expense` writes only the expenses table, so the budget fetch of
the subsequent `check_budget` sees the same budget rows as before. -/
theorem fetchBudget_log_expense (db : DB) (uid : Nat) (amount : ℚ) (cat ds : String)
    (sw : Option String) (d month : String) (mail : MailOutcome) (uid2 : Nat)
    (cat2 month2 : String) :
    fetchBudget (log_expense db uid amount cat ds sw d month mail).1 uid2 cat2 month2
      = fetchBudget db uid2 cat2 month2 := rfl

/-- `log_expense` leaves the users table unchanged. -/
theorem users_log_expense (db : DB) (uid : Nat) (amount : ℚ) (cat ds : String)
    (sw : Option String) (d month : String) (mail : MailOutcome) :
    (log_expense db uid amount cat ds sw d month mail).1.users = db.users := rfl

/-! ### Claims -/

/-- C1 (code bug evaluation): on a fresh store, calling `set_budget` twice
for the key (user 1, "Food", "2025-10") leaves TWO budget rows for that
key, not one — the `budgets` schema has no uniqueness constraint on
(user_id, category, month), so `INSERT OR REPLACE` never replaces — and
the budget the tracker subsequently reads (`fetchone` = first row) still
carries the FIRST call's amount 100, not the second call's 200. -/
theorem set_budget_same_key_twice_duplicates :
    ((set_budget (set_budget setup_database 1 "Food" 100 "2025-10" (1/10))
        1 "Food" 200 "2025-10" (1/10)).budgets.countP
      (fun b => b.user_id == 1 && b.category == "Food" && b.month == "2025-10")) = 2
    ∧ fetchBudget (set_budget (set_budget setup_database 1 "Food" 100 "2025-10" (1/10))
        1 "Food" 200 "2025-10" (1/10)) 1 "Food" "2025-10"
      = some (100, 1/10) :=
  ⟨rfl, rfl⟩

/-- C9: registering an already-present email again, with any (possibly
different) display name, leaves the entire store unchanged: the
conflicting insert is undone by the UNIQUE(email) constraint and the
`except` fallback only reads the existing id. -/
theorem add_user_existing_email_state_unchanged (db : DB) (email n2 : String)
    (h : db.users.any (fun u => u.email == email) = true) :
    (add_user db email n2).1 = db := by
  simp [add_user, h]

def c9db : DB := (add_user setup_database "a@b.com" "Alice").1

theorem add_user_existing_email_state_unchanged_witness :
    (c9db.users.any (fun u => u.email == "a@b.com") = true)
    ∧ (add_user c9db "a@b.com" "Bob").1 = c9db :=
  ⟨by decide, add_user_existing_email_state_unchanged c9db "a@b.com" "Bob" (by decide)⟩

/-- C6: monthly spending over a (user, category, month) key with no
matching expense rows is exactly 0: the SQL `SUM` fetch yields `NULL`
and `result or 0.0` maps it to `0.0`; the operation is a total function
of the store, so no error is possible. -/
theorem get_monthly_spending_no_rows (db : DB) (uid : Nat) (cat month : String)
    (h : db.expenses.filter (expenseMatches uid cat month) = []) :
    get_monthly_spending db uid cat month = 0 := by
  simp [get_monthly_spending, h, sqlSum, pyOrZero]

theorem get_monthly_spending_no_rows_witness :
    (setup_database.expenses.filter (expenseMatches 1 "Food" "2025-10") = [])
    ∧ get_monthly_spending setup_database 1 "Food" "2025-10" = 0 :=
  ⟨rfl, get_monthly_spending_no_rows setup_database 1 "Food" "2025-10" rfl⟩

/-- C4: under the UNIQUE(email) invariant (at most one stored row per
email), registering the same email twice returns the same user id from
both calls, the id is actually returned (the duplicate-insert conflict
is swallowed, not surfaced), and exactly one user row with that email
remains. -/
theorem add_user_same_email_twice (db : DB) (email n1 n2 : String)
    (huniq : (db.users.filter (fun u => u.email == email)).length ≤ 1) :
    (add_user db email n1).2 = (add_user (add_user db email n1).1 email n2).2
    ∧ ((add_user db email n1).2).isSome = true
    ∧ ((add_user (add_user db email n1).1 email n2).1.users.filter
        (fun u => u.email == email)).length = 1 := by
  by_cases hex : db.users.any (fun u => u.email == email) = true
  · obtain ⟨u, hu, hpu⟩ := List.any_eq_true.mp hex
    have hpos : 0 < (db.users.filter (fun v => v.email == email)).length :=
      List.length_pos_of_mem (List.mem_filter.mpr ⟨hu, hpu⟩)
    have hfind : ((db.users.find? (fun v => v.email == email)).isSome) = true :=
      List.find?_isSome.mpr ⟨u, hu, hpu⟩
    refine ⟨by simp [add_user, hex], ?_, ?_⟩
    · simp [add_user, hex, get_user_id, Option.isSome_map]
      exact ⟨u, hu, by simpa using hpu⟩
    · simp [add_user, hex]
      omega
  · have hexf : db.users.any (fun u => u.email == email) = false :=
      Bool.not_eq_true _ |>.mp hex
    have hall : ∀ v ∈ db.users, ¬(v.email == email) = true := by
      intro v hv hpv
      exact hex (List.any_eq_true.mpr ⟨v, hv, hpv⟩)
    have hnil : db.users.filter (fun v => v.email == email) = [] :=
      List.filter_eq_nil_iff.mpr hall
    have hnone : db.users.find? (fun v => v.email == email) = none :=
      List.find?_eq_none.mpr hall
    refine ⟨?_, ?_, ?_⟩
    · simp [add_user, hexf, get_user_id, hnone, List.any_append, List.find?_append]
    · simp [add_user, hexf]
    · simp [add_user, hexf, List.filter_append, hnil]

theorem add_user_same_email_twice_witness :
    ((setup_database.users.filter (fun u => u.email == "a@b.com")).length ≤ 1)
    ∧ ((add_user setup_database "a@b.com" "Alice").2
        = (add_user (add_user setup_database "a@b.com" "Alice").1 "a@b.com" "Bob").2
      ∧ ((add_user setup_database "a@b.com" "Alice").2).isSome = true
      ∧ (((add_user (add_user setup_database "a@b.com" "Alice").1 "a@b.com" "Bob").1.users.filter
          (fun u => u.email == "a@b.com")).length = 1)) :=
  ⟨by decide, add_user_same_email_twice setup_database "a@b.com" "Alice" "Bob" (by decide)⟩

/-- An error escaping `send_alert` can only be the `TypeError` of the
missing-user fetch; nothing else in it raises past the `except`. -/
theorem send_alert_error_shape (db : DB) (uid : Nat) (mail : MailOutcome) (f : PyFault) :
    send_alert db uid mail = Except.error f → f = PyFault.noneSubscriptError := by
  unfold send_alert
  cases db.users.find? (fun u => u.id == uid) <;> simp [eq_comm]

/-- When the user row exists, `send_alert` returns normally whatever the
delivery outcome, with the console line of a swallowed failure. -/
theorem send_alert_ok (db : DB) (uid : Nat) (mail : MailOutcome)
    (hu : (db.users.find? (fun u => u.id == uid)).isSome = true) :
    send_alert db uid mail = Except.ok (mailConsole mail) := by
  unfold send_alert
  obtain ⟨u, hfind⟩ := Option.isSome_iff_exists.mp hu
  rw [hfind]

/-- C3: if the budget row that `check_budget` fetches for (user, category,
current month) carries amount exactly 0, the `log_expense` call aborts
with the unguarded division's `ZeroDivisionError` (the expense insert
itself is already committed); if the fetched amount is nonzero, no such
fault can arise. -/
theorem log_expense_zero_budget_fault (db : DB) (uid : Nat) (amount : ℚ)
    (cat ds d month : String) (sw : Option String) (mail : MailOutcome) :
    (∀ t : ℚ, fetchBudget db uid cat month = some (0, t) →
      (log_expense db uid amount cat ds sw d month mail).2
        = Except.error PyFault.zeroDivisionError)
    ∧ (∀ b t : ℚ, fetchBudget db uid cat month = some (b, t) → b ≠ 0 →
      (log_expense db uid amount cat ds sw d month mail).2
        ≠ Except.error PyFault.zeroDivisionError) := by
  constructor
  · intro t h
    have h1 : fetchBudget (log_expense db uid amount cat ds sw d month mail).1 uid cat month
        = some (0, t) := h
    show check_budget (log_expense db uid amount cat ds sw d month mail).1 uid cat month mail = _
    simp [check_budget, h1]
  · intro b t h hb
    have h1 : fetchBudget (log_expense db uid amount cat ds sw d month mail).1 uid cat month
        = some (b, t) := h
    show check_budget (log_expense db uid amount cat ds sw d month mail).1 uid cat month mail ≠ _
    simp only [check_budget, h1]
    rw [if_neg hb]
    split
    · cases hs : send_alert (log_expense db uid amount cat ds sw d month mail).1 uid mail with
      | error f =>
        have := send_alert_error_shape _ _ _ _ hs
        simp [hs, this]
      | ok c => simp [hs]
    · split
      · cases hs : send_alert (log_expense db uid amount cat ds sw d month mail).1 uid mail with
        | error f =>
          have := send_alert_error_shape _ _ _ _ hs
          simp [hs, this]
        | ok c => simp [hs]
      · simp

def c3db : DB :=
  set_budget (add_user setup_database "a@b.com" "Alice").1 1 "Food" 0 "2025-10" (1/10)

def c3dbGood : DB :=
  set_budget (add_user setup_database "a@b.com" "Alice").1 1 "Food" 100 "2025-10" (1/10)

theorem log_expense_zero_budget_fault_witness :
    (fetchBudget c3db 1 "Food" "2025-10" = some (0, 1/10))
    ∧ (log_expense c3db 1 95 "Food" "Dinner" none "2025-10-07" "2025-10" MailOutcome.sent).2
        = Except.error PyFault.zeroDivisionError
    ∧ (fetchBudget c3dbGood 1 "Food" "2025-10" = some (100, 1/10))
    ∧ (log_expense c3dbGood 1 95 "Food" "Dinner" none "2025-10-07" "2025-10" MailOutcome.sent).2
        ≠ Except.error PyFault.zeroDivisionError :=
  ⟨rfl,
   (log_expense_zero_budget_fault c3db 1 95 "Food" "Dinner" "2025-10-07" "2025-10"
      none MailOutcome.sent).1 (1/10) rfl,
   rfl,
   (log_expense_zero_budget_fault c3dbGood 1 95 "Food" "Dinner" "2025-10-07" "2025-10"
      none MailOutcome.sent).2 100 (1/10) rfl (by norm_num)⟩

/-- Whenever the user row exists, the only error `check_budget` can
produce is the division fault, and in the absence of a fetched zero
budget it returns normally. -/
theorem check_budget_cases (db : DB) (uid : Nat) (cat month : String) (mail : MailOutcome)
    (hu : (db.users.find? (fun u => u.id == uid)).isSome = true) :
    (∀ f : PyFault, check_budget db uid cat month mail = Except.error f →
      f = PyFault.zeroDivisionError)
    ∧ ((∀ b t : ℚ, fetchBudget db uid cat month = some (b, t) → b ≠ 0) →
      ∃ o : CheckOutcome, check_budget db uid cat month mail = Except.ok o) := by
  have hsa := send_alert_ok db uid mail hu
  constructor
  · intro f hf
    rw [check_budget] at hf
    cases hfb : fetchBudget db uid cat month with
    | none => rw [hfb] at hf; simp at hf
    | some p =>
      obtain ⟨b, t⟩ := p
      rw [hfb] at hf
      simp only at hf
      by_cases hb : b = 0
      · rw [if_pos hb] at hf
        simpa using hf.symm
      · rw [if_neg hb] at hf
        split at hf
        · rw [hsa] at hf; simp at hf
        · split at hf
          · rw [hsa] at hf; simp at hf
          · simp at hf
  · intro hnz
    rw [check_budget]
    cases hfb : fetchBudget db uid cat month with
    | none => exact ⟨⟨none, none⟩, rfl⟩
    | some p =>
      obtain ⟨b, t⟩ := p
      have hb : b ≠ 0 := hnz b t hfb
      simp only
      rw [if_neg hb]
      split
      · rw [hsa]; exact ⟨_, rfl⟩
      · split
        · rw [hsa]; exact ⟨_, rfl⟩
        · exact ⟨⟨none, none⟩, rfl⟩

/-- C8: for a user that exists in the store, a mail delivery failure
during the alert triggered by `log_expense` is caught and never reaches
the caller: the resulting store is the same as on successful delivery,
the new expense row is committed either way, any error that does escape
is the (independent) division fault, and when the fetched budget is not
zero the call returns normally even though delivery failed. -/
theorem log_expense_mail_failure_swallowed (db : DB) (uid : Nat) (amount : ℚ)
    (cat ds d month : String) (sw : Option String) (r : String)
    (hu : (db.users.find? (fun u => u.id == uid)).isSome = true) :
    ((log_expense db uid amount cat ds sw d month (MailOutcome.failed r)).1
      = (log_expense db uid amount cat ds sw d month MailOutcome.sent).1)
    ∧ (⟨db.nextExpenseId, uid, amount, cat, ds, d, pyOrEmpty sw⟩ : ExpenseRow)
        ∈ (log_expense db uid amount cat ds sw d month (MailOutcome.failed r)).1.expenses
    ∧ (∀ f : PyFault,
        (log_expense db uid amount cat ds sw d month (MailOutcome.failed r)).2
          = Except.error f → f = PyFault.zeroDivisionError)
    ∧ ((∀ b t : ℚ, fetchBudget db uid cat month = some (b, t) → b ≠ 0) →
        ∃ o : CheckOutcome,
          (log_expense db uid amount cat ds sw d month (MailOutcome.failed r)).2
            = Except.ok o) := by
  have hu1 : (((log_expense db uid amount cat ds sw d month (MailOutcome.failed r)).1).users.find?
      (fun u => u.id == uid)).isSome = true := hu
  have hc := check_budget_cases (log_expense db uid amount cat ds sw d month (MailOutcome.failed r)).1
    uid cat month (MailOutcome.failed r) hu1
  refine ⟨rfl, ?_, hc.1, hc.2⟩
  show _ ∈ db.expenses ++ [_]
  simp

def c8db : DB :=
  set_budget (add_user setup_database "a@b.com" "Alice").1 1 "Food" 100 "2025-10" (1/10)

theorem log_expense_mail_failure_swallowed_witness :
    ((c8db.users.find? (fun u => u.id == 1)).isSome = true)
    ∧ (log_expense c8db 1 95 "Food" "Dinner" none "2025-10-07" "2025-10"
        (MailOutcome.failed "network down")).1
      = (log_expense c8db 1 95 "Food" "Dinner" none "2025-10-07" "2025-10" MailOutcome.sent).1
    ∧ (∃ o : CheckOutcome,
        (log_expense c8db 1 95 "Food" "Dinner" none "2025-10-07" "2025-10"
          (MailOutcome.failed "network down")).2 = Except.ok o) :=
  ⟨by decide,
   (log_expense_mail_failure_swallowed c8db 1 95 "Food" "Dinner" "2025-10-07" "2025-10" none
      "network down" (by decide)).1,
   (log_expense_mail_failure_swallowed c8db 1 95 "Food" "Dinner" "2025-10-07" "2025-10" none
      "network down" (by decide)).2.2.2 (by
        intro b t h
        have h2 : some ((100 : ℚ), (1 : ℚ)/10) = some (b, t) := h
        have hb : (100 : ℚ) = b := congrArg (fun o => ((Option.getD o (0, 0)).1 : ℚ)) h2
        rw [← hb]
        norm_num)⟩

/-- C2: with the fetched budget (100, 0.1) and an existing user, the
budget check run by `log_expense` behaves as: total spending 95
(remaining 5% ≤ 10% threshold) triggers exactly the "Low budget
warning" alert; total spending 105 (over budget) triggers exactly the
"Budget exceeded" alert instead.  The returned outcome carries one
optional alert filled by mutually exclusive branches, so at most one
alert can fire in any single check. -/
theorem log_expense_alert_thresholds (db : DB) (uid : Nat) (A : ℚ)
    (cat ds d month : String) (sw : Option String) (mail : MailOutcome)
    (hfb : fetchBudget db uid cat month = some (100, 1/10))
    (hu : (db.users.find? (fun u => u.id == uid)).isSome = true) :
    (get_monthly_spending (log_expense db uid A cat ds sw d month mail).1 uid cat month = 95 →
      (log_expense db uid A cat ds sw d month mail).2
        = Except.ok ⟨some ⟨"Low budget warning", cat⟩, mailConsole mail⟩)
    ∧ (get_monthly_spending (log_expense db uid A cat ds sw d month mail).1 uid cat month = 105 →
      (log_expense db uid A cat ds sw d month mail).2
        = Except.ok ⟨some ⟨"Budget exceeded", cat⟩, mailConsole mail⟩) := by
  have hfb1 : fetchBudget (log_expense db uid A cat ds sw d month mail).1 uid cat month
      = some (100, 1/10) := hfb
  have hu1 : (((log_expense db uid A cat ds sw d month mail).1).users.find?
      (fun u => u.id == uid)).isSome = true := hu
  have hsa := send_alert_ok (log_expense db uid A cat ds sw d month mail).1 uid mail hu1
  constructor
  · intro hsp
    show check_budget (log_expense db uid A cat ds sw d month mail).1 uid cat month mail = _
    rw [check_budget, hfb1]
    simp only [hsp]
    rw [if_neg (by norm_num), if_neg (by norm_num), if_pos (by norm_num), hsa]
  · intro hsp
    show check_budget (log_expense db uid A cat ds sw d month mail).1 uid cat month mail = _
    rw [check_budget, hfb1]
    simp only [hsp]
    rw [if_neg (by norm_num), if_pos (by norm_num), hsa]

def c2db : DB :=
  set_budget (add_user setup_database "a@b.com" "Alice").1 1 "Food" 100 "2025-10" (1/10)

theorem log_expense_alert_thresholds_witness :
    (fetchBudget c2db 1 "Food" "2025-10" = some (100, 1/10))
    ∧ ((c2db.users.find? (fun u => u.id == 1)).isSome = true)
    ∧ get_monthly_spending (log_expense c2db 1 95 "Food" "Dinner" none "2025-10-07" "2025-10"
        MailOutcome.sent).1 1 "Food" "2025-10" = 95
    ∧ (log_expense c2db 1 95 "Food" "Dinner" none "2025-10-07" "2025-10" MailOutcome.sent).2
        = Except.ok ⟨some ⟨"Low budget warning", "Food"⟩, mailConsole MailOutcome.sent⟩
    ∧ get_monthly_spending (log_expense c2db 1 105 "Food" "TV" none "2025-10-07" "2025-10"
        MailOutcome.sent).1 1 "Food" "2025-10" = 105
    ∧ (log_expense c2db 1 105 "Food" "TV" none "2025-10-07" "2025-10" MailOutcome.sent).2
        = Except.ok ⟨some ⟨"Budget exceeded", "Food"⟩, mailConsole MailOutcome.sent⟩ := by
  have hsp95 : get_monthly_spending (log_expense c2db 1 95 "Food" "Dinner" none
      "2025-10-07" "2025-10" MailOutcome.sent).1 1 "Food" "2025-10" = 95 := by
    show pyOrZero (sqlSum [(95 : ℚ)]) = 95
    simp [sqlSum, pyOrZero_some]
  have hsp105 : get_monthly_spending (log_expense c2db 1 105 "Food" "TV" none
      "2025-10-07" "2025-10" MailOutcome.sent).1 1 "Food" "2025-10" = 105 := by
    show pyOrZero (sqlSum [(105 : ℚ)]) = 105
    simp [sqlSum, pyOrZero_some]
  refine ⟨rfl, by decide, hsp95, ?_, hsp105, ?_⟩
  · exact (log_expense_alert_thresholds c2db 1 95 "Food" "Dinner" "2025-10-07" "2025-10" none
      MailOutcome.sent rfl (by decide)).1 hsp95
  · exact (log_expense_alert_thresholds c2db 1 105 "Food" "TV" "2025-10-07" "2025-10" none
      MailOutcome.sent rfl (by decide)).2 hsp105

/-- The store after `log_expense`: the one new expense row, stamped with
the current date and the next rowid, appended to the expenses table. -/
theorem expenses_log_expense (db : DB) (uid : Nat) (amount : ℚ) (cat ds : String)
    (sw : Option String) (d month : String) (mail : MailOutcome) :
    (log_expense db uid amount cat ds sw d month mail).1.expenses
      = db.expenses ++ [⟨db.nextExpenseId, uid, amount, cat, ds, d, pyOrEmpty sw⟩] := rfl

theorem nextExpenseId_log_expense (db : DB) (uid : Nat) (amount : ℚ) (cat ds : String)
    (sw : Option String) (d month : String) (mail : MailOutcome) :
    (log_expense db uid amount cat ds sw d month mail).1.nextExpenseId
      = db.nextExpenseId + 1 := rfl

/-- C5: starting from a store with no expenses matching (user, category,
month), logging amount A makes monthly spending A, logging amount B on
top makes it A + B, and the two calls insert two distinct rows (fresh
consecutive ids) — so logging identical data twice is not idempotent. -/
theorem log_expense_accumulates (db : DB) (uid : Nat) (cat month : String)
    (A B : ℚ) (d1 d2 ds1 ds2 : String) (sw1 sw2 : Option String) (m1 m2 : MailOutcome)
    (h0 : db.expenses.filter (expenseMatches uid cat month) = [])
    (hd1 : dateLike month d1 = true) (hd2 : dateLike month d2 = true) :
    get_monthly_spending (log_expense db uid A cat ds1 sw1 d1 month m1).1 uid cat month = A
    ∧ get_monthly_spending (log_expense (log_expense db uid A cat ds1 sw1 d1 month m1).1
        uid B cat ds2 sw2 d2 month m2).1 uid cat month = A + B
    ∧ ((log_expense (log_expense db uid A cat ds1 sw1 d1 month m1).1
        uid B cat ds2 sw2 d2 month m2).1.expenses.filter (expenseMatches uid cat month)).map
          (fun e => e.id)
        = [db.nextExpenseId, db.nextExpenseId + 1] := by
  have hm1 : expenseMatches uid cat month
      ⟨db.nextExpenseId, uid, A, cat, ds1, d1, pyOrEmpty sw1⟩ = true := by
    simp [expenseMatches, hd1]
  have hm2 : expenseMatches uid cat month
      ⟨db.nextExpenseId + 1, uid, B, cat, ds2, d2, pyOrEmpty sw2⟩ = true := by
    simp [expenseMatches, hd2]
  have hf1 : ((log_expense db uid A cat ds1 sw1 d1 month m1).1.expenses.filter
      (expenseMatches uid cat month))
      = [⟨db.nextExpenseId, uid, A, cat, ds1, d1, pyOrEmpty sw1⟩] := by
    rw [expenses_log_expense, List.filter_append, h0]
    simp [hm1]
  have hf2 : ((log_expense (log_expense db uid A cat ds1 sw1 d1 month m1).1
      uid B cat ds2 sw2 d2 month m2).1.expenses.filter (expenseMatches uid cat month))
      = [⟨db.nextExpenseId, uid, A, cat, ds1, d1, pyOrEmpty sw1⟩,
         ⟨db.nextExpenseId + 1, uid, B, cat, ds2, d2, pyOrEmpty sw2⟩] := by
    rw [expenses_log_expense, nextExpenseId_log_expense, expenses_log_expense,
      List.filter_append, List.filter_append, h0]
    simp [hm1, hm2]
  refine ⟨?_, ?_, ?_⟩
  · rw [get_monthly_spending, hf1]
    simp [sqlSum, pyOrZero_some]
  · rw [get_monthly_spending, hf2]
    simp [sqlSum, pyOrZero_some]
  · rw [hf2]
    simp

theorem log_expense_accumulates_witness :
    (setup_database.expenses.filter (expenseMatches 1 "Food" "2025-10") = [])
    ∧ dateLike "2025-10" "2025-10-05" = true
    ∧ dateLike "2025-10" "2025-10-06" = true
    ∧ (get_monthly_spending (log_expense setup_database 1 7 "Food" "Lunch" none "2025-10-05"
          "2025-10" MailOutcome.sent).1 1 "Food" "2025-10" = 7
      ∧ get_monthly_spending (log_expense (log_expense setup_database 1 7 "Food" "Lunch" none
          "2025-10-05" "2025-10" MailOutcome.sent).1 1 5 "Food" "Dinner" none "2025-10-06"
          "2025-10" MailOutcome.sent).1 1 "Food" "2025-10" = 7 + 5
      ∧ ((log_expense (log_expense setup_database 1 7 "Food" "Lunch" none "2025-10-05"
          "2025-10" MailOutcome.sent).1 1 5 "Food" "Dinner" none "2025-10-06"
          "2025-10" MailOutcome.sent).1.expenses.filter
            (expenseMatches 1 "Food" "2025-10")).map (fun e => e.id)
          = [setup_database.nextExpenseId, setup_database.nextExpenseId + 1]) :=
  ⟨rfl, by decide, by decide,
   log_expense_accumulates setup_database 1 "Food" "2025-10" 7 5 "2025-10-05" "2025-10-06"
     "Lunch" "Dinner" none none MailOutcome.sent MailOutcome.sent rfl (by decide) (by decide)⟩

/-- A sole `%` pattern accepts any string, given sufficient fuel. -/
theorem likeRun_pct (s : List Char) : ∀ f : Nat, s.length + 2 ≤ f →
    likeRun f ['%'] s = true := by
  induction s with
  | nil =>
    intro f hf
    obtain ⟨g, rfl⟩ : ∃ g, f = g + 2 := ⟨f - 2, by omega⟩
    simp [likeRun]
  | cons c t ih =>
    intro f hf
    obtain ⟨g, rfl⟩ : ∃ g, f = g + 1 := ⟨f - 1, by omega⟩
    have hg : t.length + 2 ≤ g := by simp at hf; omega
    simp [likeRun, ih g hg]

/-- The pattern `m ++ "%"` accepts every string that extends `m`:
each pattern character of `m` consumes the corresponding character of
the string (a literal matches itself, `_` anything, `%` can stand for
exactly one character here), and the trailing `%` absorbs the rest. -/
theorem likeRun_self_append (m : List Char) : ∀ (rest : List Char) (f : Nat),
    2 * m.length + rest.length + 2 ≤ f →
    likeRun f (m ++ ['%']) (m ++ rest) = true := by
  induction m with
  | nil =>
    intro rest f hf
    exact likeRun_pct rest f (by simpa using hf)
  | cons c m ih =>
    intro rest f hf
    obtain ⟨g, rfl⟩ : ∃ g, f = g + 2 := ⟨f - 2, by simp at hf; omega⟩
    by_cases hc : c = '%'
    · subst hc
      have h1 : likeRun g (m ++ ['%']) (m ++ rest) = true := by
        apply ih
        simp at hf
        omega
      simp [likeRun, h1]
    · have h1 : likeRun (g + 1) (m ++ ['%']) (m ++ rest) = true := by
        apply ih
        simp at hf
        omega
      have hcb : (c == '%') = false := by simpa using hc
      simp [likeRun, hcb, h1]

/-- Any date string that literally starts with the month key passes the
`date LIKE month || '%'` test. -/
theorem dateLike_self_append (m r : String) : dateLike m (m ++ r) = true := by
  unfold dateLike sqlLike
  rw [String.data_append, String.data_append]
  have hpct : ("%" : String).data = ['%'] := rfl
  rw [hpct]
  apply likeRun_self_append
  simp [String.length_append]
  have : ("%" : String).length = 1 := rfl
  omega

def c10db : DB :=
  (log_expense (log_expense (log_expense setup_database
    1 1 "Food" "a" none "2025-10-05" "2025-10" MailOutcome.sent).1
    1 2 "Food" "b" none "2025-11-06" "2025-11" MailOutcome.sent).1
    1 4 "Food" "c" none "2025-12-07" "2025-12" MailOutcome.sent).1

/-- C10: spending aggregation matches expenses by string prefix on the
date: any expense of the right user and category whose date string
starts with the month argument is counted.  On a store with "Food"
expenses of amounts 1, 2, 4 dated 2025-10-05, 2025-11-06, 2025-12-07:
the month key "2025-1" sums all three (7), the empty key sums all of
the user's expenses (7), and only the full "YYYY-MM" key "2025-10"
restricts the sum to one calendar month (1). -/
theorem month_prefix_matching :
    (∀ m r : String, dateLike m (m ++ r) = true)
    ∧ (∀ (db : DB) (uid : Nat) (cat m : String) (e : ExpenseRow),
        e ∈ db.expenses → e.user_id = uid → e.category = cat → dateLike m e.date = true →
        e ∈ db.expenses.filter (expenseMatches uid cat m))
    ∧ get_monthly_spending c10db 1 "Food" "2025-1" = 7
    ∧ get_monthly_spending c10db 1 "Food" "" = 7
    ∧ get_monthly_spending c10db 1 "Food" "2025-10" = 1 := by
  refine ⟨dateLike_self_append, ?_, ?_, ?_, ?_⟩
  · intro db uid cat m e he h1 h2 h3
    rw [List.mem_filter]
    exact ⟨he, by simp [expenseMatches, h1, h2, h3]⟩
  · show pyOrZero (sqlSum [(1 : ℚ), 2, 4]) = 7
    simp [sqlSum, pyOrZero_some]
    norm_num
  · show pyOrZero (sqlSum [(1 : ℚ), 2, 4]) = 7
    simp [sqlSum, pyOrZero_some]
    norm_num
  · show pyOrZero (sqlSum [(1 : ℚ)]) = 1
    simp [sqlSum, pyOrZero_some]

theorem month_prefix_matching_witness :
    dateLike "2025-1" ("2025-1" ++ "1-06") = true
    ∧ (⟨2, 1, 2, "Food", "b", "2025-11-06", ""⟩ : ExpenseRow)
        ∈ c10db.expenses.filter (expenseMatches 1 "Food" "2025-1") :=
  ⟨month_prefix_matching.1 "2025-1" "1-06",
   month_prefix_matching.2.1 c10db 1 "Food" "2025-1" ⟨2, 1, 2, "Food", "b", "2025-11-06", ""⟩
     (by decide) rfl rfl (by decide)⟩

/-- C7: the report for (user, month) holds one row per category in the
union of categories with matching spending and categories with budget
rows for the month (membership in either direction, and the listed
categories are free of duplicates); each row shows the aggregate spent
amount, the budget amount with `0.0` when no budget row exists, and a
status that is "Under" exactly when spent ≤ budget or the budget equals
0 (a zero budget is never reported "Over", whatever was spent) and
"Over" in every other case. -/
theorem generate_report_rows (db : DB) (uid : Nat) (month : String) :
    (∀ cat : String, ((∃ r ∈ generate_report db uid month, r.category = cat) ↔
        ((∃ e ∈ db.expenses, e.user_id = uid ∧ dateLike month e.date = true ∧ e.category = cat)
          ∨ (∃ b ∈ db.budgets, b.user_id = uid ∧ b.month = month ∧ b.category = cat))))
    ∧ ((generate_report db uid month).map (fun r => r.category)).Nodup
    ∧ (∀ r ∈ generate_report db uid month,
        r.spent = catSpent db uid month r.category
        ∧ r.budget = (budgetDict db uid month r.category).getD 0
        ∧ (r.status = "Under" ↔ (r.spent ≤ r.budget ∨ r.budget = 0))
        ∧ (r.status = "Under" ∨ r.status = "Over")) := by
  have hmapcat : (generate_report db uid month).map (fun r => r.category)
      = (spendingCats db uid month ++ budgetCats db uid month).dedup := by
    rw [generate_report, List.map_map]
    exact List.map_id _
  refine ⟨?_, ?_, ?_⟩
  · intro cat
    have hunion : (∃ r ∈ generate_report db uid month, r.category = cat) ↔
        cat ∈ (spendingCats db uid month ++ budgetCats db uid month).dedup := by
      constructor
      · rintro ⟨r, hr, hcat⟩
        obtain ⟨c, hc, hrc⟩ := List.mem_map.mp hr
        subst hrc
        have hcc : c = cat := hcat
        exact hcc ▸ hc
      · intro hc
        exact ⟨reportLine db uid month cat, List.mem_map.mpr ⟨cat, hc, rfl⟩, rfl⟩
    rw [hunion, List.mem_dedup, List.mem_append]
    constructor
    · rintro (hs | hb)
      · left
        simp only [spendingCats, List.mem_dedup, List.mem_map, List.mem_filter] at hs
        obtain ⟨e, ⟨he, hp⟩, hcat⟩ := hs
        simp only [Bool.and_eq_true, beq_iff_eq] at hp
        exact ⟨e, he, hp.1, hp.2, hcat⟩
      · right
        simp only [budgetCats, List.mem_dedup, List.mem_map, List.mem_filter] at hb
        obtain ⟨b, ⟨hbm, hp⟩, hcat⟩ := hb
        simp only [Bool.and_eq_true, beq_iff_eq] at hp
        exact ⟨b, hbm, hp.1, hp.2, hcat⟩
    · rintro (⟨e, he, h1, h2, h3⟩ | ⟨b, hbm, h1, h2, h3⟩)
      · left
        simp only [spendingCats, List.mem_dedup, List.mem_map, List.mem_filter]
        exact ⟨e, ⟨he, by simp [h1, h2]⟩, h3⟩
      · right
        simp only [budgetCats, List.mem_dedup, List.mem_map, List.mem_filter]
        exact ⟨b, ⟨hbm, by simp [h1, h2]⟩, h3⟩
  · rw [hmapcat]
    exact List.nodup_dedup _
  · intro r hr
    obtain ⟨c, hc, hrc⟩ := List.mem_map.mp hr
    subst hrc
    refine ⟨rfl, rfl, ?_, ?_⟩
    · show (if catSpent db uid month c ≤ (budgetDict db uid month c).getD 0
          ∨ (budgetDict db uid month c).getD 0 = 0 then "Under" else "Over") = "Under" ↔ _
      by_cases h : catSpent db uid month c ≤ (budgetDict db uid month c).getD 0
          ∨ (budgetDict db uid month c).getD 0 = 0
      · rw [if_pos h]
        simpa using h
      · rw [if_neg h]
        constructor
        · intro hcontra
          exact absurd hcontra (by simp)
        · intro hcontra
          exact absurd hcontra h
    · show ((if catSpent db uid month c ≤ (budgetDict db uid month c).getD 0
          ∨ (budgetDict db uid month c).getD 0 = 0 then "Under" else "Over") = "Under") ∨ _
      by_cases h : catSpent db uid month c ≤ (budgetDict db uid month c).getD 0
          ∨ (budgetDict db uid month c).getD 0 = 0
      · left
        rw [if_pos h]
      · right
        show (if _ then "Under" else "Over") = "Over"
        rw [if_neg h]

def c7db : DB :=
  set_budget (set_budget (log_expense (add_user setup_database "a@b.com" "Alice").1
    1 95 "Food" "Groceries" none "2025-10-03" "2025-10" MailOutcome.sent).1
    1 "Food" 100 "2025-10" (1/10)) 1 "Transit" 50 "2025-10" (1/10)

theorem generate_report_rows_witness :
    (reportLine c7db 1 "2025-10" "Food" ∈ generate_report c7db 1 "2025-10")
    ∧ (reportLine c7db 1 "2025-10" "Transit" ∈ generate_report c7db 1 "2025-10")
    ∧ (reportLine c7db 1 "2025-10" "Food").spent = 95
    ∧ (reportLine c7db 1 "2025-10" "Food").budget = 100
    ∧ (reportLine c7db 1 "2025-10" "Food").status = "Under"
    ∧ (reportLine c7db 1 "2025-10" "Transit").spent = 0
    ∧ (reportLine c7db 1 "2025-10" "Transit").budget = 50
    ∧ (reportLine c7db 1 "2025-10" "Transit").status = "Under"
    ∧ ((reportLine c7db 1 "2025-10" "Food").status = "Under"
        ↔ ((reportLine c7db 1 "2025-10" "Food").spent ≤ (reportLine c7db 1 "2025-10" "Food").budget
            ∨ (reportLine c7db 1 "2025-10" "Food").budget = 0)) := by
  have hmF : reportLine c7db 1 "2025-10" "Food" ∈ generate_report c7db 1 "2025-10" :=
    List.mem_map.mpr ⟨"Food", by decide, rfl⟩
  have hmT : reportLine c7db 1 "2025-10" "Transit" ∈ generate_report c7db 1 "2025-10" :=
    List.mem_map.mpr ⟨"Transit", by decide, rfl⟩
  have hsF : (reportLine c7db 1 "2025-10" "Food").spent = 95 := by
    show List.sum [(95 : ℚ)] = 95
    simp
  have hleF : catSpent c7db 1 "2025-10" "Food" ≤ (budgetDict c7db 1 "2025-10" "Food").getD 0 := by
    show List.sum [(95 : ℚ)] ≤ (100 : ℚ)
    norm_num
  have hstF : (reportLine c7db 1 "2025-10" "Food").status = "Under" := by
    show (if catSpent c7db 1 "2025-10" "Food" ≤ (budgetDict c7db 1 "2025-10" "Food").getD 0
        ∨ (budgetDict c7db 1 "2025-10" "Food").getD 0 = 0 then "Under" else "Over") = "Under"
    rw [if_pos (Or.inl hleF)]
  have hleT : catSpent c7db 1 "2025-10" "Transit"
      ≤ (budgetDict c7db 1 "2025-10" "Transit").getD 0 := by
    show List.sum ([] : List ℚ) ≤ (50 : ℚ)
    norm_num
  have hstT : (reportLine c7db 1 "2025-10" "Transit").status = "Under" := by
    show (if catSpent c7db 1 "2025-10" "Transit" ≤ (budgetDict c7db 1 "2025-10" "Transit").getD 0
        ∨ (budgetDict c7db 1 "2025-10" "Transit").getD 0 = 0 then "Under" else "Over") = "Under"
    rw [if_pos (Or.inl hleT)]
  exact ⟨hmF, hmT, hsF, rfl, hstF, rfl, rfl, hstT,
    ((generate_report_rows c7db 1 "2025-10").2.2 _ hmF).2.2.1⟩
